import Mathlib

set_option linter.unusedVariables false

deriving instance DecidableEq for Except

/-!
Shallow embedding of the certificate- and signature-verification core
(`verify.rs`) of a rustls fork.  External cryptographic primitives
(the webpki and sct crates) are modelled as oracle functions supplied as
parameters; the control flow, error mapping and state handling of
`verify.rs` itself is embedded faithfully.  Machine integers are modelled
as `Nat`/`Int` with explicit bounds where overflow matters.
-/

namespace Rustls

/-- DER-encoded certificate bytes; opaque to this core (`key::Certificate`). -/
structure Certificate where
  bytes : List Nat
deriving DecidableEq

/-- A parsed end-entity certificate handle (`webpki::EndEntityCert`);
opaque, produced by the parse oracle. -/
structure EndEntityCert where
  handle : List Nat
deriving DecidableEq

/-- A validated DNS name (`webpki::DnsNameRef`); opaque to this core. -/
structure DnsName where
  name : String
deriving DecidableEq

/-- The TLS signature-scheme registry (`msgs::enums::SignatureScheme`);
the wire identifiers negotiated during the handshake. -/
inductive SignatureScheme where
  | RSA_PKCS1_SHA1
  | ECDSA_SHA1_Legacy
  | RSA_PKCS1_SHA256
  | ECDSA_NISTP256_SHA256
  | RSA_PKCS1_SHA384
  | ECDSA_NISTP384_SHA384
  | RSA_PKCS1_SHA512
  | ECDSA_NISTP521_SHA512
  | RSA_PSS_SHA256
  | RSA_PSS_SHA384
  | RSA_PSS_SHA512
  | ED25519
  | ED448
  | Unknown (code : Nat)
deriving DecidableEq

/-- The concrete signature-algorithm descriptors of the webpki crate
that `verify.rs` references (`webpki::SignatureAlgorithm` constants). -/
inductive SignatureAlgorithm where
  | ECDSA_P256_SHA256
  | ECDSA_P256_SHA384
  | ECDSA_P384_SHA256
  | ECDSA_P384_SHA384
  | ED25519
  | RSA_PSS_2048_8192_SHA256_LEGACY_KEY
  | RSA_PSS_2048_8192_SHA384_LEGACY_KEY
  | RSA_PSS_2048_8192_SHA512_LEGACY_KEY
  | RSA_PKCS1_2048_8192_SHA256
  | RSA_PKCS1_2048_8192_SHA384
  | RSA_PKCS1_2048_8192_SHA512
  | RSA_PKCS1_3072_8192_SHA384
deriving DecidableEq

/-- Errors of the webpki crate that this core inspects or forwards.
`UnsupportedSignatureAlgorithmForPublicKey` is the one variant whose
identity matters to control flow (TLS-1.2 candidate iteration). -/
inductive WebpkiError where
  | UnsupportedSignatureAlgorithmForPublicKey
  | BadSignature
  | BadDer
  | CertNotValidForName
  | UnknownIssuer
  | otherErr (code : Nat)
deriving DecidableEq

/-- The operation tag attached to forwarded webpki errors
(`error::WebPkiOp`). -/
inductive WebPkiOp where
  | ValidateServerCert
  | ValidateClientCert
  | ValidateForDnsName
  | ParseEndEntity
  | VerifySignature
deriving DecidableEq

/-- An error of the sct crate (`sct::Error`), abstracted to the data this
core inspects: its fatal/soft classification (`should_be_fatal`) and an
identity tag so distinct errors are distinguishable. -/
structure SctError where
  should_be_fatal : Bool
  code : Nat
deriving DecidableEq

/-- The error type of this core (`error::Error`), restricted to the
variants `verify.rs` can produce. -/
inductive Error where
  | WebPkiError (e : WebpkiError) (op : WebPkiOp)
  | PeerMisbehavedError (msg : String)
  | FailedToGetCurrentTime
  | InvalidSct (e : SctError)
deriving DecidableEq

/-- Proof token: a handshake signature was verified
(`HandshakeSignatureValid`, built by its `assertion` constructor). -/
inductive HandshakeSignatureValid where
  | assertion
deriving DecidableEq

/-- Proof token: a Finished message was verified
(`FinishedMessageVerified`). -/
inductive FinishedMessageVerified where
  | assertion
deriving DecidableEq

/-- Proof token: a server certificate chain was verified
(`ServerCertVerified`). -/
inductive ServerCertVerified where
  | assertion
deriving DecidableEq

/-- Proof token: a client certificate chain was verified
(`ClientCertVerified`). -/
inductive ClientCertVerified where
  | assertion
deriving DecidableEq

/-- A trusted Certificate Transparency log (`sct::Log`); opaque to this
core beyond its identity. -/
structure Log where
  id : Nat
deriving DecidableEq

/-- A trust anchor held by the root store (`anchors::OwnedTrustAnchor`):
subject, subject-public-key info and optional name constraints. -/
structure OwnedTrustAnchor where
  subject : List Nat
  spki : List Nat
  name_constraints : Option (List Nat)
deriving DecidableEq

/-- The scheme-with-signature pair produced by the peer
(`msgs::handshake::DigitallySignedStruct`). -/
structure DigitallySignedStruct where
  scheme : SignatureScheme
  sig : List Nat
deriving DecidableEq

/-- Modelled from the spec: the Trust Store (`anchors::RootCertStore`,
whose source is outside this tree) — an ordered collection of trust
anchors that can be reset to empty, appended to individually or in
batch (best-effort, skipping malformed entries), and queried for
size/emptiness/subject list. -/
structure RootCertStore where
  roots : List OwnedTrustAnchor
deriving DecidableEq

def RootCertStore.empty : RootCertStore := ⟨[]⟩

def RootCertStore.is_empty (s : RootCertStore) : Bool := s.roots.isEmpty

def RootCertStore.len (s : RootCertStore) : Nat := s.roots.length

/-- Modelled from the spec: the distinguished-name listing of the store
(`RootCertStore::subjects`). -/
def RootCertStore.subjects (s : RootCertStore) : List (List Nat) :=
  s.roots.map OwnedTrustAnchor.subject

/-- Modelled from the spec: individual append (`RootCertStore::add`);
parsing of the DER bytes is the supplied oracle, a malformed entry is
rejected with the parse error and leaves the store unchanged. -/
def RootCertStore.add (parse : List Nat → Except WebpkiError OwnedTrustAnchor)
    (s : RootCertStore) (der : Certificate) :
    Except WebpkiError Unit × RootCertStore :=
  match parse der.bytes with
  | .ok ta => (.ok (), ⟨s.roots ++ [ta]⟩)
  | .error e => (.error e, s)

/-- Modelled from the spec: bulk append of pre-parsed anchors
(`RootCertStore::add_server_trust_anchors`). -/
def RootCertStore.add_server_trust_anchors (s : RootCertStore)
    (anchors : List OwnedTrustAnchor) : RootCertStore :=
  ⟨s.roots ++ anchors⟩

/-- Modelled from the spec: best-effort batch append
(`RootCertStore::add_parsable_certificates`), returning
(number added, number ignored) with malformed entries skipped. -/
def RootCertStore.add_parsable_certificates
    (parse : List Nat → Except WebpkiError OwnedTrustAnchor)
    (s : RootCertStore) (der_certs : List (List Nat)) :
    (Nat × Nat) × RootCertStore :=
  match der_certs with
  | [] => ((0, 0), s)
  | der :: rest =>
    match parse der with
    | .ok ta =>
      let ((ok_n, err_n), s2) :=
        RootCertStore.add_parsable_certificates parse ⟨s.roots ++ [ta]⟩ rest
      ((ok_n + 1, err_n), s2)
    | .error _ =>
      let ((ok_n, err_n), s2) := RootCertStore.add_parsable_certificates parse s rest
      ((ok_n, err_n + 1), s2)

/-- Oracle bundle for the external webpki and sct crates: certificate
parsing, the four cryptographic checks, and SCT verification.  Each
field abstracts the crate function `verify.rs` calls by that name. -/
structure WebpkiOracle where
  parse_end_entity : List Nat → Except WebpkiError EndEntityCert
  verify_signature :
    EndEntityCert → SignatureAlgorithm → List Nat → List Nat → Except WebpkiError Unit
  verify_is_valid_tls_server_cert :
    EndEntityCert → List SignatureAlgorithm → List OwnedTrustAnchor →
      List (List Nat) → Nat → Except WebpkiError Unit
  verify_is_valid_tls_client_cert :
    EndEntityCert → List SignatureAlgorithm → List OwnedTrustAnchor →
      List (List Nat) → Nat → Except WebpkiError Unit
  verify_is_valid_for_dns_name : EndEntityCert → DnsName → Except WebpkiError Unit
  verify_sct : List Nat → List Nat → Nat → List Log → Except SctError Nat

/-- The fixed chain-building algorithm set (`SUPPORTED_SIG_ALGS`). -/
def SUPPORTED_SIG_ALGS : List SignatureAlgorithm :=
  [.ECDSA_P256_SHA256, .ECDSA_P256_SHA384, .ECDSA_P384_SHA256, .ECDSA_P384_SHA384,
   .ED25519,
   .RSA_PSS_2048_8192_SHA256_LEGACY_KEY, .RSA_PSS_2048_8192_SHA384_LEGACY_KEY,
   .RSA_PSS_2048_8192_SHA512_LEGACY_KEY,
   .RSA_PKCS1_2048_8192_SHA256, .RSA_PKCS1_2048_8192_SHA384,
   .RSA_PKCS1_2048_8192_SHA512, .RSA_PKCS1_3072_8192_SHA384]

/-- TLS-1.2 candidate set for ECDSA-SHA256 schemes (`ECDSA_SHA256`). -/
def ECDSA_SHA256 : List SignatureAlgorithm :=
  [.ECDSA_P256_SHA256, .ECDSA_P384_SHA256]

/-- TLS-1.2 candidate set for ECDSA-SHA384 schemes (`ECDSA_SHA384`). -/
def ECDSA_SHA384 : List SignatureAlgorithm :=
  [.ECDSA_P256_SHA384, .ECDSA_P384_SHA384]

/-- TLS-1.2 candidate set for Ed25519 (`ED25519`). -/
def ED25519 : List SignatureAlgorithm := [.ED25519]

def RSA_SHA256 : List SignatureAlgorithm := [.RSA_PKCS1_2048_8192_SHA256]

def RSA_SHA384 : List SignatureAlgorithm := [.RSA_PKCS1_2048_8192_SHA384]

def RSA_SHA512 : List SignatureAlgorithm := [.RSA_PKCS1_2048_8192_SHA512]

def RSA_PSS_SHA256 : List SignatureAlgorithm := [.RSA_PSS_2048_8192_SHA256_LEGACY_KEY]

def RSA_PSS_SHA384 : List SignatureAlgorithm := [.RSA_PSS_2048_8192_SHA384_LEGACY_KEY]

def RSA_PSS_SHA512 : List SignatureAlgorithm := [.RSA_PSS_2048_8192_SHA512_LEGACY_KEY]

/-- TLS-1.2 scheme resolution (`convert_scheme`): maps a scheme to the
set of acceptable concrete algorithms; for TLS-1.2 the curve is not
fixed by the scheme name.  Unrecognized schemes are a peer-misbehavior
protocol error. -/
def convert_scheme (scheme : SignatureScheme) :
    Except Error (List SignatureAlgorithm) :=
  match scheme with
  | .ECDSA_NISTP256_SHA256 => .ok ECDSA_SHA256
  | .ECDSA_NISTP384_SHA384 => .ok ECDSA_SHA384
  | .ED25519 => .ok ED25519
  | .RSA_PKCS1_SHA256 => .ok RSA_SHA256
  | .RSA_PKCS1_SHA384 => .ok RSA_SHA384
  | .RSA_PKCS1_SHA512 => .ok RSA_SHA512
  | .RSA_PSS_SHA256 => .ok RSA_PSS_SHA256
  | .RSA_PSS_SHA384 => .ok RSA_PSS_SHA384
  | .RSA_PSS_SHA512 => .ok RSA_PSS_SHA512
  | _ => .error (.PeerMisbehavedError "received unadvertised sig scheme")

/-- TLS-1.2 candidate iteration (`verify_sig_using_any_alg`): tries each
algorithm in order; `UnsupportedSignatureAlgorithmForPublicKey` skips to
the next candidate, any other result is final, and exhausting the list
yields `UnsupportedSignatureAlgorithmForPublicKey`. -/
def verify_sig_using_any_alg (o : WebpkiOracle) (cert : EndEntityCert)
    (algs : List SignatureAlgorithm) (message sig : List Nat) :
    Except WebpkiError Unit :=
  match algs with
  | [] => .error .UnsupportedSignatureAlgorithmForPublicKey
  | alg :: rest =>
    match o.verify_signature cert alg message sig with
    | .error .UnsupportedSignatureAlgorithmForPublicKey =>
      verify_sig_using_any_alg o cert rest message sig
    | res => res

/-- TLS-1.2 signature verification (`verify_signed_struct`). -/
def verify_signed_struct (o : WebpkiOracle) (message : List Nat)
    (cert : Certificate) (dss : DigitallySignedStruct) :
    Except Error HandshakeSignatureValid :=
  match convert_scheme dss.scheme with
  | .error e => .error e
  | .ok possible_algs =>
    match o.parse_end_entity cert.bytes with
    | .error e => .error (.WebPkiError e .ParseEndEntity)
    | .ok c =>
      match verify_sig_using_any_alg o c possible_algs message dss.sig with
      | .error e => .error (.WebPkiError e .VerifySignature)
      | .ok _ => .ok .assertion

/-- TLS-1.3 scheme resolution (`convert_alg_tls13`): maps a scheme to
exactly one concrete algorithm; RSA-PKCS#1 and every other scheme
outside the set is a peer-misbehavior protocol error. -/
def convert_alg_tls13 (scheme : SignatureScheme) :
    Except Error SignatureAlgorithm :=
  match scheme with
  | .ECDSA_NISTP256_SHA256 => .ok .ECDSA_P256_SHA256
  | .ECDSA_NISTP384_SHA384 => .ok .ECDSA_P384_SHA384
  | .ED25519 => .ok .ED25519
  | .RSA_PSS_SHA256 => .ok .RSA_PSS_2048_8192_SHA256_LEGACY_KEY
  | .RSA_PSS_SHA384 => .ok .RSA_PSS_2048_8192_SHA384_LEGACY_KEY
  | .RSA_PSS_SHA512 => .ok .RSA_PSS_2048_8192_SHA512_LEGACY_KEY
  | _ => .error (.PeerMisbehavedError "received unsupported sig scheme")

/-- TLS-1.3 signature verification (`verify_tls13`): resolves the scheme
to a single algorithm and performs one verification attempt. -/
def verify_tls13 (o : WebpkiOracle) (msg : List Nat) (cert : Certificate)
    (dss : DigitallySignedStruct) : Except Error HandshakeSignatureValid :=
  match convert_alg_tls13 dss.scheme with
  | .error e => .error e
  | .ok alg =>
    match o.parse_end_entity cert.bytes with
    | .error e => .error (.WebPkiError e .ParseEndEntity)
    | .ok c =>
      match o.verify_signature c alg msg dss.sig with
      | .error e => .error (.WebPkiError e .VerifySignature)
      | .ok _ => .ok .assertion

/-- Upper bound of the 64-bit unsigned range (`u64::MAX`). -/
def U64_MAX : Nat := 2 ^ 64 - 1

/-- Model of `SystemTime::duration_since(UNIX_EPOCH).map(Duration::as_secs)`
with time represented as a signed count of milliseconds since the Unix
epoch: fails for any instant before the epoch, otherwise yields the
whole-seconds count (sub-second part truncated). -/
def duration_since_epoch_secs (now : Int) : Except Unit Nat :=
  if now < 0 then .error () else .ok (now.toNat / 1000)

/-- Model of `u64::checked_mul`. -/
def checked_mul_u64 (a b : Nat) : Option Nat :=
  if a * b ≤ U64_MAX then some (a * b) else none

/-- Time conversion used by SCT verification (`unix_time_millis`):
seconds since the epoch multiplied by 1000, with before-epoch and
overflow both mapped to `FailedToGetCurrentTime`. -/
def unix_time_millis (now : Int) : Except Error Nat :=
  match duration_since_epoch_secs now with
  | .error _ => .error .FailedToGetCurrentTime
  | .ok secs =>
    match checked_mul_u64 secs 1000 with
    | some ms => .ok ms
    | none => .error .FailedToGetCurrentTime

/-- The conversion that the words of the spec describe, for comparison: the exact
number of milliseconds since the Unix epoch, failing before the epoch. -/
def exact_unix_millis (now : Int) : Except Error Nat :=
  if now < 0 then .error .FailedToGetCurrentTime else .ok now.toNat

/-- The iteration body of `verify_scts`: walk the SCT sequence keeping
the last soft error; a valid SCT returns success at once, a fatal error
aborts at once, exhaustion fails with the last soft error if any SCT
was seen and succeeds otherwise. -/
def verify_scts_loop (o : WebpkiOracle) (cert : Certificate) (now_ms : Nat)
    (logs : List Log) (scts : List (List Nat)) (last_sct_error : Option SctError) :
    Except Error Unit :=
  match scts with
  | [] =>
    match last_sct_error with
    | some e => .error (.InvalidSct e)
    | none => .ok ()
  | sct :: rest =>
    match o.verify_sct cert.bytes sct now_ms logs with
    | .ok _ => .ok ()
    | .error e =>
      if e.should_be_fatal then .error (.InvalidSct e)
      else verify_scts_loop o cert now_ms logs rest (some e)

/-- SCT verification (`verify_scts`): succeeds immediately when no logs
are trusted; otherwise converts the time and iterates the SCTs. -/
def verify_scts (o : WebpkiOracle) (cert : Certificate) (now : Int)
    (scts : List (List Nat)) (logs : List Log) : Except Error Unit :=
  if logs.isEmpty then .ok ()
  else
    match unix_time_millis now with
    | .error e => .error e
    | .ok now_ms => verify_scts_loop o cert now_ms logs scts none

/-- Model of `webpki::Time::try_from(SystemTime)`: fails for instants
before the epoch. -/
def webpki_time_try_from (now : Int) : Except Unit Nat :=
  if now < 0 then .error () else .ok now.toNat

/-- Chain preparation (`prepare`): parse the end-entity certificate,
collect intermediate bytes and trust anchors. -/
def prepare (o : WebpkiOracle) (end_entity : Certificate)
    (intermediates : List Certificate) (roots : RootCertStore) :
    Except Error (EndEntityCert × List (List Nat) × List OwnedTrustAnchor) :=
  match o.parse_end_entity end_entity.bytes with
  | .error e => .error (.WebPkiError e .ParseEndEntity)
  | .ok cert => .ok (cert, intermediates.map Certificate.bytes, roots.roots)

/-- The default server verifier (`WebPkiVerifier`): a trust store plus
the trusted CT logs. -/
structure WebPkiVerifier where
  roots : RootCertStore
  ct_logs : List Log
deriving DecidableEq

/-- The advertised scheme list (`WebPkiVerifier::verification_schemes`),
most preferred first. -/
def WebPkiVerifier.verification_schemes : List SignatureScheme :=
  [.ECDSA_NISTP384_SHA384, .ECDSA_NISTP256_SHA256, .ED25519,
   .RSA_PSS_SHA512, .RSA_PSS_SHA384, .RSA_PSS_SHA256,
   .RSA_PKCS1_SHA512, .RSA_PKCS1_SHA384, .RSA_PKCS1_SHA256]

/-- Server certificate verification
(`<WebPkiVerifier as ServerCertVerifier>::verify_server_cert`): prepare
the chain, convert the time, validate the chain, evaluate SCTs, then
check the DNS name; the OCSP response is only logged. -/
def verify_server_cert (o : WebpkiOracle) (v : WebPkiVerifier)
    (end_entity : Certificate) (intermediates : List Certificate)
    (dns_name : DnsName) (scts : List (List Nat)) (ocsp_response : List Nat)
    (now : Int) : Except Error ServerCertVerified :=
  match prepare o end_entity intermediates v.roots with
  | .error e => .error e
  | .ok (cert, chain, trustroots) =>
    match webpki_time_try_from now with
    | .error _ => .error .FailedToGetCurrentTime
    | .ok webpki_now =>
      match o.verify_is_valid_tls_server_cert cert SUPPORTED_SIG_ALGS trustroots chain webpki_now with
      | .error e => .error (.WebPkiError e .ValidateServerCert)
      | .ok _ =>
        match verify_scts o end_entity now scts v.ct_logs with
        | .error e => .error e
        | .ok _ =>
          match o.verify_is_valid_for_dns_name cert dns_name with
          | .error e => .error (.WebPkiError e .ValidateForDnsName)
          | .ok _ => .ok ServerCertVerified.assertion

/-- The trait-default TLS-1.2 signature method of the server verifier
(`ServerCertVerifier::verify_tls12_signature`). -/
def WebPkiVerifier.verify_tls12_signature (o : WebpkiOracle) (v : WebPkiVerifier)
    (message : List Nat) (cert : Certificate) (dss : DigitallySignedStruct) :
    Except Error HandshakeSignatureValid :=
  verify_signed_struct o message cert dss

/-- The trait-default TLS-1.3 signature method of the server verifier
(`ServerCertVerifier::verify_tls13_signature`). -/
def WebPkiVerifier.verify_tls13_signature (o : WebpkiOracle) (v : WebPkiVerifier)
    (message : List Nat) (cert : Certificate) (dss : DigitallySignedStruct) :
    Except Error HandshakeSignatureValid :=
  verify_tls13 o message cert dss

/-- Result of invoking a trait method whose body may be `unimplemented!()`:
either a returned value or a panic/abort. -/
inductive MethodResult (α : Type) where
  | ok (val : α)
  | panicked
deriving DecidableEq

/-- The always-require client verifier (`AllowAnyAuthenticatedClient`):
wraps one trust store. -/
structure AllowAnyAuthenticatedClient where
  roots : RootCertStore
deriving DecidableEq

def AllowAnyAuthenticatedClient.offer_client_auth
    (v : AllowAnyAuthenticatedClient) : Bool := true

def AllowAnyAuthenticatedClient.client_auth_mandatory
    (v : AllowAnyAuthenticatedClient) (sni : Option DnsName) : Option Bool :=
  some true

def AllowAnyAuthenticatedClient.client_auth_root_subjects
    (v : AllowAnyAuthenticatedClient) (sni : Option DnsName) :
    Option (List (List Nat)) :=
  some v.roots.subjects

/-- Client certificate verification
(`AllowAnyAuthenticatedClient::verify_client_cert`): prepare the chain,
convert the time, validate as a TLS client certificate; no name check. -/
def AllowAnyAuthenticatedClient.verify_client_cert (o : WebpkiOracle)
    (v : AllowAnyAuthenticatedClient) (end_entity : Certificate)
    (intermediates : List Certificate) (sni : Option DnsName) (now : Int) :
    Except Error ClientCertVerified :=
  match prepare o end_entity intermediates v.roots with
  | .error e => .error e
  | .ok (cert, chain, trustroots) =>
    match webpki_time_try_from now with
    | .error _ => .error .FailedToGetCurrentTime
    | .ok webpki_now =>
      match o.verify_is_valid_tls_client_cert cert SUPPORTED_SIG_ALGS trustroots chain webpki_now with
      | .error e => .error (.WebPkiError e .ValidateClientCert)
      | .ok _ => .ok ClientCertVerified.assertion

/-- The always-reject client verifier (`NoClientAuth`): a unit type. -/
structure NoClientAuth where
deriving DecidableEq

def NoClientAuth.offer_client_auth : Bool := false

/-- Trait-default `client_auth_mandatory` as inherited by `NoClientAuth`:
`Some(self.offer_client_auth())`; not overridden, so it returns rather
than panics. -/
def NoClientAuth.client_auth_mandatory (sni : Option DnsName) :
    MethodResult (Option Bool) :=
  .ok (some NoClientAuth.offer_client_auth)

/-- `NoClientAuth::client_auth_root_subjects` is `unimplemented!()`. -/
def NoClientAuth.client_auth_root_subjects (sni : Option DnsName) :
    MethodResult (Option (List (List Nat))) :=
  .panicked

/-- `NoClientAuth::verify_client_cert` is `unimplemented!()`. -/
def NoClientAuth.verify_client_cert (end_entity : Certificate)
    (intermediates : List Certificate) (sni : Option DnsName) (now : Int) :
    MethodResult (Except Error ClientCertVerified) :=
  .panicked

/-- Trait-default TLS-1.2 signature method as inherited by `NoClientAuth`:
delegates to `verify_signed_struct`. -/
def NoClientAuth.verify_tls12_signature (o : WebpkiOracle) (message : List Nat)
    (cert : Certificate) (dss : DigitallySignedStruct) :
    MethodResult (Except Error HandshakeSignatureValid) :=
  .ok (verify_signed_struct o message cert dss)

/-- Trait-default TLS-1.3 signature method as inherited by `NoClientAuth`:
delegates to `verify_tls13`. -/
def NoClientAuth.verify_tls13_signature (o : WebpkiOracle) (message : List Nat)
    (cert : Certificate) (dss : DigitallySignedStruct) :
    MethodResult (Except Error HandshakeSignatureValid) :=
  .ok (verify_tls13 o message cert dss)

/-- Trait-default scheme advertisement as inherited by `NoClientAuth`:
delegates to `WebPkiVerifier::verification_schemes`. -/
def NoClientAuth.supported_verify_schemes : MethodResult (List SignatureScheme) :=
  .ok WebPkiVerifier.verification_schemes

/-- The runtime client-auth policy (`ClientCertVerifyMode`). -/
inductive ClientCertVerifyMode where
  | AllowAnyClient
  | MustVerifyClientCert (verifier : AllowAnyAuthenticatedClient)
deriving DecidableEq

/-- The runtime-switchable client verifier (`SafeDefaultClientVerifier`).
The `RwLock` around the mode makes every operation an atomic read or
write of the mode; the embedding therefore passes the state explicitly,
each operation being one critical section. -/
structure SafeDefaultClientVerifier where
  mode : ClientCertVerifyMode
deriving DecidableEq

/-- `SafeDefaultClientVerifier::new`: starts in must-verify mode with an
empty root store. -/
def SafeDefaultClientVerifier.new : SafeDefaultClientVerifier :=
  ⟨.MustVerifyClientCert ⟨RootCertStore.empty⟩⟩

/-- `serve_anonymous_clients`: unconditionally switch to anonymous mode. -/
def SafeDefaultClientVerifier.serve_anonymous_clients
    (s : SafeDefaultClientVerifier) : SafeDefaultClientVerifier :=
  ⟨.AllowAnyClient⟩

/-- `serve_only_authenticated_clients`: switch to must-verify with a
fresh empty store when anonymous; no-op otherwise. -/
def SafeDefaultClientVerifier.serve_only_authenticated_clients
    (s : SafeDefaultClientVerifier) : SafeDefaultClientVerifier :=
  match s.mode with
  | .AllowAnyClient => ⟨.MustVerifyClientCert ⟨RootCertStore.empty⟩⟩
  | .MustVerifyClientCert _ => s

/-- `is_cert_store_empty`: true when anonymous or when the authenticated
store holds no anchors. -/
def SafeDefaultClientVerifier.is_cert_store_empty
    (s : SafeDefaultClientVerifier) : Bool :=
  match s.mode with
  | .AllowAnyClient => true
  | .MustVerifyClientCert verifier => verifier.roots.is_empty

/-- `root_cert_store_len`: 0 when anonymous. -/
def SafeDefaultClientVerifier.root_cert_store_len
    (s : SafeDefaultClientVerifier) : Nat :=
  match s.mode with
  | .AllowAnyClient => 0
  | .MustVerifyClientCert verifier => verifier.roots.len

/-- `root_cert_store_subjects`: `None` when anonymous. -/
def SafeDefaultClientVerifier.root_cert_store_subjects
    (s : SafeDefaultClientVerifier) : Option (List (List Nat)) :=
  match s.mode with
  | .AllowAnyClient => none
  | .MustVerifyClientCert verifier => some verifier.roots.subjects

/-- `add_trusted_root_ca`: appends to the authenticated store, `None`
and no-op when anonymous. -/
def SafeDefaultClientVerifier.add_trusted_root_ca
    (parse : List Nat → Except WebpkiError OwnedTrustAnchor)
    (s : SafeDefaultClientVerifier) (der : Certificate) :
    Option (Except WebpkiError Unit) × SafeDefaultClientVerifier :=
  match s.mode with
  | .AllowAnyClient => (none, s)
  | .MustVerifyClientCert verifier =>
    let (r, roots2) := verifier.roots.add parse der
    (some r, ⟨.MustVerifyClientCert ⟨roots2⟩⟩)

/-- `add_server_trust_anchors`: appends all anchors and returns true,
false and no-op when anonymous. -/
def SafeDefaultClientVerifier.add_server_trust_anchors
    (s : SafeDefaultClientVerifier) (anchors : List OwnedTrustAnchor) :
    Bool × SafeDefaultClientVerifier :=
  match s.mode with
  | .AllowAnyClient => (false, s)
  | .MustVerifyClientCert verifier =>
    (true, ⟨.MustVerifyClientCert ⟨verifier.roots.add_server_trust_anchors anchors⟩⟩)

/-- `batch_add_certificates`: best-effort batch append, `None` and no-op
when anonymous. -/
def SafeDefaultClientVerifier.batch_add_certificates
    (parse : List Nat → Except WebpkiError OwnedTrustAnchor)
    (s : SafeDefaultClientVerifier) (der_certs : List (List Nat)) :
    Option (Nat × Nat) × SafeDefaultClientVerifier :=
  match s.mode with
  | .AllowAnyClient => (none, s)
  | .MustVerifyClientCert verifier =>
    let (counts, roots2) := verifier.roots.add_parsable_certificates parse der_certs
    (some counts, ⟨.MustVerifyClientCert ⟨roots2⟩⟩)

/-- `reset_root_cert_store`: empties the authenticated store and returns
true, false and no-op when anonymous. -/
def SafeDefaultClientVerifier.reset_root_cert_store
    (s : SafeDefaultClientVerifier) : Bool × SafeDefaultClientVerifier :=
  match s.mode with
  | .AllowAnyClient => (false, s)
  | .MustVerifyClientCert _ =>
    (true, ⟨.MustVerifyClientCert ⟨RootCertStore.empty⟩⟩)

/-- `<SafeDefaultClientVerifier as ClientCertVerifier>::offer_client_auth`:
reflects the current mode. -/
def SafeDefaultClientVerifier.offer_client_auth
    (s : SafeDefaultClientVerifier) : Bool :=
  match s.mode with
  | .AllowAnyClient => false
  | .MustVerifyClientCert _ => true

/-- Trait-default `client_auth_mandatory` on `SafeDefaultClientVerifier`:
`Some(self.offer_client_auth())`. -/
def SafeDefaultClientVerifier.client_auth_mandatory
    (s : SafeDefaultClientVerifier) (sni : Option DnsName) : Option Bool :=
  some s.offer_client_auth

/-- `client_auth_root_subjects` on `SafeDefaultClientVerifier`:
`unimplemented!()` while anonymous, subjects of the inner store otherwise. -/
def SafeDefaultClientVerifier.client_auth_root_subjects
    (s : SafeDefaultClientVerifier) (sni : Option DnsName) :
    MethodResult (Option (List (List Nat))) :=
  match s.mode with
  | .AllowAnyClient => .panicked
  | .MustVerifyClientCert strict_verifier =>
    .ok (some strict_verifier.roots.subjects)

/-- `verify_client_cert` on `SafeDefaultClientVerifier`:
`unimplemented!()` while anonymous, delegation to the inner
`AllowAnyAuthenticatedClient` otherwise. -/
def SafeDefaultClientVerifier.verify_client_cert (o : WebpkiOracle)
    (s : SafeDefaultClientVerifier) (end_entity : Certificate)
    (intermediates : List Certificate) (sni : Option DnsName) (now : Int) :
    MethodResult (Except Error ClientCertVerified) :=
  match s.mode with
  | .AllowAnyClient => .panicked
  | .MustVerifyClientCert strict_verifier =>
    .ok (strict_verifier.verify_client_cert o end_entity intermediates sni now)

/-- The verifier state in anonymous mode. -/
def anonVerifier : SafeDefaultClientVerifier := ⟨.AllowAnyClient⟩

/-- Concrete oracle for executions: parsing, chain validation and
signatures succeed, the DNS-name check fails, every SCT draws the same
soft error. -/
def oracleDnsFailSctSoft : WebpkiOracle where
  parse_end_entity := fun _ => .ok ⟨[]⟩
  verify_signature := fun _ _ _ _ => .ok ()
  verify_is_valid_tls_server_cert := fun _ _ _ _ _ => .ok ()
  verify_is_valid_tls_client_cert := fun _ _ _ _ _ => .ok ()
  verify_is_valid_for_dns_name := fun _ _ => .error .CertNotValidForName
  verify_sct := fun _ _ _ _ => .error ⟨false, 7⟩

/-- Concrete oracle whose SCT verification always succeeds. -/
def oracleSctOk : WebpkiOracle :=
  { oracleDnsFailSctSoft with verify_sct := fun _ _ _ _ => .ok 0 }

/-- Concrete oracle whose SCT verification always draws a fatal error. -/
def oracleSctFatal : WebpkiOracle :=
  { oracleDnsFailSctSoft with verify_sct := fun _ _ _ _ => .error ⟨true, 3⟩ }

/-- Concrete oracle whose signature check always reports the algorithm
as unsupported for the public key. -/
def oracleSigUnsupported : WebpkiOracle :=
  { oracleDnsFailSctSoft with
    verify_signature := fun _ _ _ _ =>
      .error .UnsupportedSignatureAlgorithmForPublicKey }

/-- A concrete certificate. -/
def certEx : Certificate := ⟨[1]⟩

/-- A concrete DNS name. -/
def dnsEx : DnsName := ⟨"example.com"⟩

/-- A concrete trusted CT log. -/
def logEx : Log := ⟨0⟩

/-- A server verifier trusting one CT log. -/
def vOneLog : WebPkiVerifier := ⟨RootCertStore.empty, [logEx]⟩

/-- A server verifier trusting no CT log. -/
def vNoLogs : WebPkiVerifier := ⟨RootCertStore.empty, []⟩

/-! Helper lemmas about the SCT iteration and the TLS-1.2 candidate
iteration. -/

/-- When every SCT in the sequence draws a soft error, the iteration
fails with the last of those errors, falling back to the incoming
accumulator (and then to success) when the sequence is empty. -/
theorem verify_scts_loop_all_soft (o : WebpkiOracle) (cert : Certificate)
    (now_ms : Nat) (logs : List Log) :
    ∀ (scts : List (List Nat)) (es : List SctError),
      List.Forall₂ (fun sct e =>
        o.verify_sct cert.bytes sct now_ms logs = .error e ∧
        e.should_be_fatal = false) scts es →
      ∀ last, verify_scts_loop o cert now_ms logs scts last =
        match es.getLast? with
        | some e => .error (.InvalidSct e)
        | none =>
          match last with
          | some e => .error (.InvalidSct e)
          | none => .ok () := by
  intro scts es h
  induction h with
  | nil => intro last; rfl
  | @cons a b as bs hab htail ih =>
    intro last
    obtain ⟨heq, hsoft⟩ := hab
    show verify_scts_loop o cert now_ms logs (a :: as) last = _
    rw [verify_scts_loop, heq]
    simp only [hsoft, if_false, Bool.false_eq_true]
    rw [ih (some b)]
    cases bs with
    | nil => rfl
    | cons c cs =>
      rw [List.getLast?_cons_cons]
      cases hgl : (c :: cs).getLast? with
      | none => simp [List.getLast?] at hgl
      | some e => rfl

/-- A prefix of soft-erroring SCTs only updates the accumulator: the
result of the iteration on `pre ++ rest` is its result on `rest` from some
accumulator. -/
theorem verify_scts_loop_soft_skip (o : WebpkiOracle) (cert : Certificate)
    (now_ms : Nat) (logs : List Log) :
    ∀ (pre : List (List Nat)),
      (∀ sct ∈ pre, ∃ e, o.verify_sct cert.bytes sct now_ms logs = .error e ∧
        e.should_be_fatal = false) →
      ∀ (rest : List (List Nat)) (last : Option SctError), ∃ last2,
        verify_scts_loop o cert now_ms logs (pre ++ rest) last =
          verify_scts_loop o cert now_ms logs rest last2 := by
  intro pre
  induction pre with
  | nil => intro h rest last; exact ⟨last, rfl⟩
  | cons a as ih =>
    intro h rest last
    obtain ⟨e, heq, hsoft⟩ := h a (List.mem_cons_self a as)
    have step : verify_scts_loop o cert now_ms logs ((a :: as) ++ rest) last =
        verify_scts_loop o cert now_ms logs (as ++ rest) (some e) := by
      show verify_scts_loop o cert now_ms logs (a :: (as ++ rest)) last = _
      rw [verify_scts_loop, heq]
      simp only [hsoft, if_false, Bool.false_eq_true]
    obtain ⟨last2, h2⟩ := ih (fun sct hs => h sct (List.mem_cons_of_mem a hs)) rest (some e)
    exact ⟨last2, step.trans h2⟩

/-- When every candidate algorithm reports itself unsupported for the
public key, the TLS-1.2 candidate iteration exhausts the set and fails
with that error. -/
theorem verify_sig_using_any_alg_all_unsupported (o : WebpkiOracle)
    (cert : EndEntityCert) (message sig : List Nat) :
    ∀ (algs : List SignatureAlgorithm),
      (∀ alg ∈ algs, o.verify_signature cert alg message sig =
        .error .UnsupportedSignatureAlgorithmForPublicKey) →
      verify_sig_using_any_alg o cert algs message sig =
        .error .UnsupportedSignatureAlgorithmForPublicKey := by
  intro algs
  induction algs with
  | nil => intro h; rfl
  | cons alg rest ih =>
    intro h
    rw [verify_sig_using_any_alg, h alg (List.mem_cons_self alg rest)]
    exact ih fun a ha => h a (List.mem_cons_of_mem alg ha)

/-- Claim C7: the runtime-switchable client verifier starts in
must-verify mode with an empty root store (`is_cert_store_empty` and
`offer_client_auth` are both true on a fresh instance);
`serve_anonymous_clients` unconditionally switches any state to
anonymous mode, discarding stored anchors; `serve_only_authenticated_clients`
after an anonymous excursion yields a fresh must-verify state with an
empty store (prior anchors are not restored), and on an
already-authenticated state with N anchors it is a no-op leaving all N
anchors intact. -/
theorem safe_default_mode_transitions :
    (SafeDefaultClientVerifier.new.is_cert_store_empty = true ∧
     SafeDefaultClientVerifier.new.offer_client_auth = true) ∧
    (∀ s : SafeDefaultClientVerifier,
      s.serve_anonymous_clients = anonVerifier ∧
      s.serve_anonymous_clients.root_cert_store_len = 0) ∧
    (∀ s : SafeDefaultClientVerifier,
      s.serve_anonymous_clients.serve_only_authenticated_clients =
        SafeDefaultClientVerifier.new) ∧
    (∀ v : AllowAnyAuthenticatedClient,
      SafeDefaultClientVerifier.serve_only_authenticated_clients
          ⟨.MustVerifyClientCert v⟩ = ⟨.MustVerifyClientCert v⟩ ∧
      (SafeDefaultClientVerifier.serve_only_authenticated_clients
          ⟨.MustVerifyClientCert v⟩).root_cert_store_len = v.roots.len) := by
  refine ⟨⟨rfl, rfl⟩, fun s => ⟨rfl, rfl⟩, fun s => rfl, fun v => ⟨rfl, rfl⟩⟩

/-- Claim C8 counterexample: `client_auth_mandatory` on `NoClientAuth`
is inherited from the trait default and returns `Some(false)` instead of
panicking, refuting the claim that every method other than
`offer_client_auth` panics. -/
theorem no_client_auth_mandatory_returns :
    NoClientAuth.client_auth_mandatory none = .ok (some false) ∧
    NoClientAuth.client_auth_mandatory none ≠ .panicked := by
  exact ⟨rfl, by decide⟩

/-- Claim C8 (amended): `NoClientAuth.offer_client_auth` returns false;
`client_auth_root_subjects` and `verify_client_cert` panic on every
input; `client_auth_mandatory` returns `Some(false)` via the trait
default, and the signature-verification methods and
`supported_verify_schemes` run the trait defaults (`verify_signed_struct`,
`verify_tls13`, `WebPkiVerifier::verification_schemes`) without
unconditional panic. -/
theorem no_client_auth_methods (o : WebpkiOracle) :
    NoClientAuth.offer_client_auth = false ∧
    (∀ sni, NoClientAuth.client_auth_root_subjects sni = .panicked) ∧
    (∀ ee im sni now, NoClientAuth.verify_client_cert ee im sni now = .panicked) ∧
    (∀ sni, NoClientAuth.client_auth_mandatory sni = .ok (some false)) ∧
    (∀ message cert dss, NoClientAuth.verify_tls12_signature o message cert dss =
      .ok (verify_signed_struct o message cert dss)) ∧
    (∀ message cert dss, NoClientAuth.verify_tls13_signature o message cert dss =
      .ok (verify_tls13 o message cert dss)) ∧
    NoClientAuth.supported_verify_schemes = .ok WebPkiVerifier.verification_schemes := by
  exact ⟨rfl, fun _ => rfl, fun _ _ _ _ => rfl, fun _ => rfl,
    fun _ _ _ => rfl, fun _ _ _ => rfl, rfl⟩

/-- Claim C9: while the runtime-switchable verifier is anonymous, every
mutating trust-anchor operation leaves the state unchanged and reports
not-applicable (`add_trusted_root_ca` and `batch_add_certificates`
return `None`, `add_server_trust_anchors` and `reset_root_cert_store`
return false), and the queries read without mutation:
`is_cert_store_empty` is true, `root_cert_store_len` is 0 and
`root_cert_store_subjects` is `None`. -/
theorem anonymous_mode_frame :
    (∀ parse der, SafeDefaultClientVerifier.add_trusted_root_ca parse
      anonVerifier der = (none, anonVerifier)) ∧
    (∀ parse ders, SafeDefaultClientVerifier.batch_add_certificates parse
      anonVerifier ders = (none, anonVerifier)) ∧
    (∀ anchors, SafeDefaultClientVerifier.add_server_trust_anchors
      anonVerifier anchors = (false, anonVerifier)) ∧
    SafeDefaultClientVerifier.reset_root_cert_store anonVerifier =
      (false, anonVerifier) ∧
    SafeDefaultClientVerifier.is_cert_store_empty anonVerifier = true ∧
    SafeDefaultClientVerifier.root_cert_store_len anonVerifier = 0 ∧
    SafeDefaultClientVerifier.root_cert_store_subjects anonVerifier = none := by
  exact ⟨fun _ _ => rfl, fun _ _ => rfl, fun _ => rfl, rfl, rfl, rfl, rfl⟩

/-- Claim C10 counterexample: at 1500 milliseconds past the epoch the
code yields 1000, not the exact 1500 milliseconds the claim requires —
`unix_time_millis` multiplies the whole-seconds count by 1000, dropping
sub-second precision. -/
theorem unix_time_millis_not_exact :
    unix_time_millis 1500 = .ok 1000 ∧
    exact_unix_millis 1500 = .ok 1500 ∧
    unix_time_millis 1500 ≠ exact_unix_millis 1500 := by
  refine ⟨by decide, by decide, by decide⟩

/-- Claim C10 (amended): the time conversion of the SCT verifier maps the
wall-clock time to its milliseconds since the epoch truncated to whole
seconds (the exact count minus its sub-second remainder); every time
before the epoch (or overflowing the conversion) yields the fatal
`FailedToGetCurrentTime`, never a soft SCT error, and `verify_scts`
with a non-empty log set propagates that fatal error. -/
theorem unix_time_millis_truncates (now : Int) :
    (now < 0 → unix_time_millis now = .error .FailedToGetCurrentTime) ∧
    (0 ≤ now → now.toNat / 1000 * 1000 ≤ U64_MAX →
      unix_time_millis now = .ok (now.toNat - now.toNat % 1000)) ∧
    (∀ e, unix_time_millis now ≠ .error (.InvalidSct e)) ∧
    (∀ o cert scts l ls, now < 0 →
      verify_scts o cert now scts (l :: ls) =
        .error .FailedToGetCurrentTime) := by
  refine ⟨?_, ?_, ?_, ?_⟩
  · intro h
    simp [unix_time_millis, duration_since_epoch_secs, h]
  · intro h hbound
    have hmod : now.toNat / 1000 * 1000 = now.toNat - now.toNat % 1000 := by
      have := Nat.div_add_mod now.toNat 1000
      omega
    have hrun : unix_time_millis now = .ok (now.toNat / 1000 * 1000) := by
      simp [unix_time_millis, duration_since_epoch_secs, checked_mul_u64,
        show ¬ now < 0 by omega, hbound]
    rw [hrun, hmod]
  · intro e
    rw [unix_time_millis]
    cases duration_since_epoch_secs now with
    | error u => simp
    | ok secs =>
      simp only []
      cases checked_mul_u64 secs 1000 with
      | none => simp
      | some ms => simp
  · intro o cert scts l ls h
    rw [verify_scts]
    simp only [List.isEmpty_cons, if_false, Bool.false_eq_true]
    rw [unix_time_millis, duration_since_epoch_secs, if_pos h]

/-- Claim C3 counterexample: with a non-empty trusted-log set and an
empty SCT sequence but a wall-clock time before the epoch, `verify_scts`
returns the fatal time error rather than the success the claim states
for every such input. -/
theorem verify_scts_time_failure_empty_scts :
    verify_scts oracleDnsFailSctSoft certEx (-1) [] [logEx] =
      .error .FailedToGetCurrentTime ∧
    verify_scts oracleDnsFailSctSoft certEx (-1) [] [logEx] ≠ .ok () := by
  exact ⟨by decide, by decide⟩

/-- Claim C3 (amended): `verify_scts` succeeds on every input when the
trusted-log set is empty; when the set is non-empty and the time
conversion succeeds, an empty SCT sequence yields success, and a
sequence whose members all draw soft errors fails with the last soft
error recorded. -/
theorem verify_scts_policy (o : WebpkiOracle) (cert : Certificate) (now : Int)
    (l : Log) (ls : List Log) :
    (∀ scts, verify_scts o cert now scts [] = .ok ()) ∧
    (∀ m, unix_time_millis now = .ok m →
      verify_scts o cert now [] (l :: ls) = .ok ()) ∧
    (∀ m, unix_time_millis now = .ok m →
      ∀ (scts : List (List Nat)) (es : List SctError),
        List.Forall₂ (fun sct e =>
          o.verify_sct cert.bytes sct m (l :: ls) = .error e ∧
          e.should_be_fatal = false) scts es →
        ∀ e, es.getLast? = some e →
          verify_scts o cert now scts (l :: ls) =
            .error (.InvalidSct e)) := by
  refine ⟨fun scts => rfl, ?_, ?_⟩
  · intro m hm
    simp [verify_scts, hm, verify_scts_loop]
  · intro m hm scts es hall e hlast
    have hrun : verify_scts o cert now scts (l :: ls) =
        verify_scts_loop o cert m (l :: ls) scts none := by
      simp [verify_scts, hm]
    rw [hrun, verify_scts_loop_all_soft o cert m (l :: ls) scts es hall none,
      hlast]

/-- Claim C3 witness: the amended theorem at concrete inputs — time 5 ms
converts to 0 ms, the empty SCT list succeeds, and a single
soft-erroring SCT fails with that error. -/
theorem verify_scts_policy_witness :
    unix_time_millis 5 = .ok 0 ∧
    verify_scts oracleDnsFailSctSoft certEx 5 [] [logEx] = .ok () ∧
    verify_scts oracleDnsFailSctSoft certEx 5 [[0]] [logEx] =
      .error (.InvalidSct ⟨false, 7⟩) := by
  have h := verify_scts_policy oracleDnsFailSctSoft certEx 5 logEx []
  refine ⟨by decide, h.2.1 0 (by decide), ?_⟩
  exact h.2.2 0 (by decide) [[0]] [⟨false, 7⟩]
    (List.Forall₂.cons ⟨by decide, rfl⟩ List.Forall₂.nil) ⟨false, 7⟩ (by decide)

/-- Claim C4: during SCT iteration with a non-empty trusted-log set and
a successful time conversion, the first SCT that verifies (after any
prefix of soft errors) returns success immediately, for every
continuation of the sequence; an SCT whose error is classified fatal
returns that error immediately, for every continuation (including ones
that would verify); and a soft error is recorded as the new accumulator
while iteration continues with the rest of the sequence. -/
theorem verify_scts_iteration (o : WebpkiOracle) (cert : Certificate)
    (now : Int) (m : Nat) (l : Log) (ls : List Log)
    (hm : unix_time_millis now = .ok m) :
    (∀ (pre : List (List Nat)),
      (∀ sct ∈ pre, ∃ e, o.verify_sct cert.bytes sct m (l :: ls) = .error e ∧
        e.should_be_fatal = false) →
      ∀ (s : List Nat) (post : List (List Nat)),
        (∀ i, o.verify_sct cert.bytes s m (l :: ls) = .ok i →
          verify_scts o cert now (pre ++ s :: post) (l :: ls) = .ok ()) ∧
        (∀ e, o.verify_sct cert.bytes s m (l :: ls) = .error e →
          e.should_be_fatal = true →
          verify_scts o cert now (pre ++ s :: post) (l :: ls) =
            .error (.InvalidSct e))) ∧
    (∀ (s : List Nat) (rest : List (List Nat)) (last : Option SctError)
        (e : SctError),
      o.verify_sct cert.bytes s m (l :: ls) = .error e →
      e.should_be_fatal = false →
      verify_scts_loop o cert m (l :: ls) (s :: rest) last =
        verify_scts_loop o cert m (l :: ls) rest (some e)) := by
  have hrun : ∀ scts, verify_scts o cert now scts (l :: ls) =
      verify_scts_loop o cert m (l :: ls) scts none := by
    intro scts
    simp [verify_scts, hm]
  refine ⟨?_, ?_⟩
  · intro pre hpre s post
    obtain ⟨last2, hskip⟩ :=
      verify_scts_loop_soft_skip o cert m (l :: ls) pre hpre (s :: post) none
    constructor
    · intro i hi
      rw [hrun, hskip, verify_scts_loop, hi]
    · intro e he hfatal
      rw [hrun, hskip, verify_scts_loop, he]
      simp [hfatal]
  · intro s rest last e he hsoft
    rw [verify_scts_loop, he]
    simp [hsoft]

/-- Claim C4 witness: the theorem applied with concrete oracles — a
valid first SCT succeeds, a fatal first SCT fails even with another SCT
pending, and a soft error steps the iteration to the remainder. -/
theorem verify_scts_iteration_witness :
    verify_scts oracleSctOk certEx 5 [[0]] [logEx] = .ok () ∧
    verify_scts oracleSctFatal certEx 5 [[0], [1]] [logEx] =
      .error (.InvalidSct ⟨true, 3⟩) ∧
    verify_scts_loop oracleDnsFailSctSoft certEx 0 [logEx] [[0], [1]] none =
      verify_scts_loop oracleDnsFailSctSoft certEx 0 [logEx] [[1]]
        (some ⟨false, 7⟩) := by
  refine ⟨?_, ?_, ?_⟩
  · exact (((verify_scts_iteration oracleSctOk certEx 5 0 logEx []
      (by decide)).1 [] (by simp) [0] []).1) 0 (by decide)
  · exact (((verify_scts_iteration oracleSctFatal certEx 5 0 logEx []
      (by decide)).1 [] (by simp) [0] [[1]]).2) ⟨true, 3⟩ (by decide) rfl
  · exact (verify_scts_iteration oracleDnsFailSctSoft certEx 5 0 logEx []
      (by decide)).2 [0] [[1]] none ⟨false, 7⟩ (by decide) rfl

/-- Claim C5: TLS-1.2 signature verification resolves each supported
ECDSA scheme to the set holding both the P-256 and the P-384 algorithm
over the hash of the scheme; the candidate iteration skips a candidate
exactly on `UnsupportedSignatureAlgorithmForPublicKey`, returns any
other outcome (success or hard failure) as final, and yields that error
when every candidate is skipped; and `verify_tls12_signature` /
`verify_signed_struct` runs that iteration on the resolved set. -/
theorem tls12_signature_resolution (o : WebpkiOracle) :
    (convert_scheme .ECDSA_NISTP256_SHA256 =
        .ok [.ECDSA_P256_SHA256, .ECDSA_P384_SHA256] ∧
      convert_scheme .ECDSA_NISTP384_SHA384 =
        .ok [.ECDSA_P256_SHA384, .ECDSA_P384_SHA384]) ∧
    (∀ cert alg rest message sig,
      (o.verify_signature cert alg message sig =
          .error .UnsupportedSignatureAlgorithmForPublicKey →
        verify_sig_using_any_alg o cert (alg :: rest) message sig =
          verify_sig_using_any_alg o cert rest message sig) ∧
      (∀ res, o.verify_signature cert alg message sig = res →
        res ≠ .error .UnsupportedSignatureAlgorithmForPublicKey →
        verify_sig_using_any_alg o cert (alg :: rest) message sig = res)) ∧
    (∀ cert message sig algs,
      (∀ alg ∈ algs, o.verify_signature cert alg message sig =
        .error .UnsupportedSignatureAlgorithmForPublicKey) →
      verify_sig_using_any_alg o cert algs message sig =
        .error .UnsupportedSignatureAlgorithmForPublicKey) ∧
    (∀ v message cert dss algs c,
      convert_scheme dss.scheme = .ok algs →
      o.parse_end_entity cert.bytes = .ok c →
      WebPkiVerifier.verify_tls12_signature o v message cert dss =
        match verify_sig_using_any_alg o c algs message dss.sig with
        | .error e => .error (.WebPkiError e .VerifySignature)
        | .ok _ => .ok .assertion) := by
  refine ⟨⟨rfl, rfl⟩, ?_, ?_, ?_⟩
  · intro cert alg rest message sig
    constructor
    · intro h
      rw [verify_sig_using_any_alg, h]
    · intro res hres hne
      rw [verify_sig_using_any_alg, hres]
      cases res with
      | ok u => rfl
      | error e => cases e <;> simp_all
  · intro cert message sig algs h
    exact verify_sig_using_any_alg_all_unsupported o cert message sig algs h
  · intro v message cert dss algs c hconv hparse
    rw [WebPkiVerifier.verify_tls12_signature, verify_signed_struct, hconv,
      hparse]

/-- Claim C5 witness: with an oracle reporting every algorithm
unsupported for the public key, the ECDSA-SHA256 candidate set is
exhausted and the TLS-1.2 verification fails with the
unsupported-algorithm error. -/
theorem tls12_signature_resolution_witness :
    verify_sig_using_any_alg oracleSigUnsupported ⟨[]⟩ ECDSA_SHA256 [] [] =
      .error .UnsupportedSignatureAlgorithmForPublicKey ∧
    WebPkiVerifier.verify_tls12_signature oracleSigUnsupported vNoLogs []
      certEx ⟨.ECDSA_NISTP256_SHA256, []⟩ =
      .error (.WebPkiError .UnsupportedSignatureAlgorithmForPublicKey
        .VerifySignature) := by
  have h := tls12_signature_resolution oracleSigUnsupported
  have h1 := h.2.2.1 ⟨[]⟩ [] [] ECDSA_SHA256 (by intro alg ha; rfl)
  refine ⟨h1, ?_⟩
  have h2 := h.2.2.2 vNoLogs [] certEx ⟨.ECDSA_NISTP256_SHA256, []⟩
    ECDSA_SHA256 ⟨[]⟩ rfl rfl
  rw [h2, h1]

/-- Claim C6 counterexample: `RSA_PKCS1_SHA256` lies outside the TLS-1.3
supported set, yet the TLS-1.2 resolver accepts it (mapping it to the
RSA-PKCS#1 algorithm set) rather than failing, refuting the claim that
both resolvers fail on every scheme outside the TLS-1.3 set. -/
theorem convert_scheme_accepts_rsa_pkcs1 :
    convert_alg_tls13 .RSA_PKCS1_SHA256 =
      .error (.PeerMisbehavedError "received unsupported sig scheme") ∧
    convert_scheme .RSA_PKCS1_SHA256 = .ok RSA_SHA256 ∧
    ∀ msg, convert_scheme .RSA_PKCS1_SHA256 ≠
      .error (.PeerMisbehavedError msg) := by
  exact ⟨rfl, rfl, fun msg h => Except.noConfusion h⟩

/-- Claim C6 (amended): TLS-1.3 signature verification resolves the
scheme to exactly one algorithm and performs exactly one verification
attempt with it, with no fallback (any outcome, including
unsupported-algorithm-for-key, is final); every scheme outside the
TLS-1.3 supported set — including the RSA-PKCS#1 family — fails in the
TLS-1.3 resolver with a peer-misbehavior error, and likewise every
scheme outside the TLS-1.2 supported set fails in the TLS-1.2 resolver
with a peer-misbehavior error; the RSA-PKCS#1 family itself, however,
is accepted by the TLS-1.2 resolver. -/
theorem tls13_signature_resolution (o : WebpkiOracle) :
    (∀ msg cert dss alg c,
      convert_alg_tls13 dss.scheme = .ok alg →
      o.parse_end_entity cert.bytes = .ok c →
      verify_tls13 o msg cert dss =
        match o.verify_signature c alg msg dss.sig with
        | .error e => .error (.WebPkiError e .VerifySignature)
        | .ok _ => .ok .assertion) ∧
    (∀ msg cert dss alg c,
      convert_alg_tls13 dss.scheme = .ok alg →
      o.parse_end_entity cert.bytes = .ok c →
      o.verify_signature c alg msg dss.sig =
        .error .UnsupportedSignatureAlgorithmForPublicKey →
      verify_tls13 o msg cert dss =
        .error (.WebPkiError .UnsupportedSignatureAlgorithmForPublicKey
          .VerifySignature)) ∧
    (∀ scheme : SignatureScheme,
      scheme ∉ ([.ECDSA_NISTP256_SHA256, .ECDSA_NISTP384_SHA384, .ED25519,
        .RSA_PSS_SHA256, .RSA_PSS_SHA384, .RSA_PSS_SHA512] :
          List SignatureScheme) →
      convert_alg_tls13 scheme =
        .error (.PeerMisbehavedError "received unsupported sig scheme")) ∧
    (∀ scheme : SignatureScheme,
      scheme ∉ ([.ECDSA_NISTP256_SHA256, .ECDSA_NISTP384_SHA384, .ED25519,
        .RSA_PKCS1_SHA256, .RSA_PKCS1_SHA384, .RSA_PKCS1_SHA512,
        .RSA_PSS_SHA256, .RSA_PSS_SHA384, .RSA_PSS_SHA512] :
          List SignatureScheme) →
      convert_scheme scheme =
        .error (.PeerMisbehavedError "received unadvertised sig scheme")) := by
  refine ⟨?_, ?_, ?_, ?_⟩
  · intro msg cert dss alg c hconv hparse
    rw [verify_tls13, hconv, hparse]
  · intro msg cert dss alg c hconv hparse hsig
    simp only [verify_tls13, hconv, hparse, hsig]
  · intro scheme h
    cases scheme <;> first | rfl | exact absurd (by decide) h
  · intro scheme h
    cases scheme <;> first | rfl | exact absurd (by decide) h

/-- Claim C6 witness: the amended theorem at concrete inputs — one
verification attempt succeeding for Ed25519, the unsupported-for-key
outcome final with no fallback, and Ed448 rejected as peer
misbehavior. -/
theorem tls13_signature_resolution_witness :
    verify_tls13 oracleDnsFailSctSoft [] certEx ⟨.ED25519, []⟩ =
      .ok .assertion ∧
    verify_tls13 oracleSigUnsupported [] certEx ⟨.ED25519, []⟩ =
      .error (.WebPkiError .UnsupportedSignatureAlgorithmForPublicKey
        .VerifySignature) ∧
    convert_alg_tls13 .ED448 =
      .error (.PeerMisbehavedError "received unsupported sig scheme") := by
  have h1 := (tls13_signature_resolution oracleDnsFailSctSoft).1 [] certEx
    ⟨.ED25519, []⟩ .ED25519 ⟨[]⟩ rfl rfl
  have h2 := (tls13_signature_resolution oracleSigUnsupported).2.1 [] certEx
    ⟨.ED25519, []⟩ .ED25519 ⟨[]⟩ rfl rfl rfl
  have h3 := (tls13_signature_resolution oracleDnsFailSctSoft).2.2.1 .ED448
    (by decide)
  exact ⟨by rw [h1]; rfl, h2, h3⟩

/-- Claim C2 counterexample: an input where both the hostname check and
an SCT check fail — the code returns the SCT error, not the
hostname-mismatch error, because `verify_server_cert` evaluates SCTs
before the DNS-name check. -/
theorem verify_server_cert_sct_before_dns :
    verify_server_cert oracleDnsFailSctSoft vOneLog certEx [] dnsEx [[0]] [] 0 =
      .error (.InvalidSct ⟨false, 7⟩) ∧
    verify_server_cert oracleDnsFailSctSoft vOneLog certEx [] dnsEx [[0]] [] 0 ≠
      .error (.WebPkiError .CertNotValidForName .ValidateForDnsName) := by
  exact ⟨by decide, by decide⟩

/-- Claim C2 (amended): in every execution of `verify_server_cert`,
chain verification happens before SCT evaluation, and SCT evaluation
happens before hostname verification: a chain failure is returned
without consulting SCTs or the hostname, an SCT failure is returned
without consulting the hostname (so when both the hostname check and an
SCT check would fail, the SCT error is the one returned), and the
hostname check decides the outcome only after chain and SCT checks have
succeeded. -/
theorem verify_server_cert_order (o : WebpkiOracle) (v : WebPkiVerifier)
    (end_entity : Certificate) (intermediates : List Certificate)
    (dns_name : DnsName) (scts : List (List Nat)) (ocsp : List Nat)
    (now : Int) (c : EndEntityCert)
    (hparse : o.parse_end_entity end_entity.bytes = .ok c)
    (hnow : 0 ≤ now) :
    (∀ e, o.verify_is_valid_tls_server_cert c SUPPORTED_SIG_ALGS v.roots.roots
        (intermediates.map Certificate.bytes) now.toNat = .error e →
      verify_server_cert o v end_entity intermediates dns_name scts ocsp now =
        .error (.WebPkiError e .ValidateServerCert)) ∧
    (o.verify_is_valid_tls_server_cert c SUPPORTED_SIG_ALGS v.roots.roots
        (intermediates.map Certificate.bytes) now.toNat = .ok () →
      (∀ e, verify_scts o end_entity now scts v.ct_logs = .error e →
        verify_server_cert o v end_entity intermediates dns_name scts ocsp now =
          .error e) ∧
      (verify_scts o end_entity now scts v.ct_logs = .ok () →
        verify_server_cert o v end_entity intermediates dns_name scts ocsp now =
          match o.verify_is_valid_for_dns_name c dns_name with
          | .error e => .error (.WebPkiError e .ValidateForDnsName)
          | .ok _ => .ok ServerCertVerified.assertion)) := by
  have hprep : prepare o end_entity intermediates v.roots =
      .ok (c, intermediates.map Certificate.bytes, v.roots.roots) := by
    rw [prepare, hparse]
  have htime : webpki_time_try_from now = .ok now.toNat := by
    rw [webpki_time_try_from, if_neg (by omega)]
  refine ⟨?_, ?_⟩
  · intro e he
    simp only [verify_server_cert, hprep, htime, he]
  · intro hchain
    constructor
    · intro e he
      simp only [verify_server_cert, hprep, htime, hchain, he]
    · intro hscts
      simp only [verify_server_cert, hprep, htime, hchain, hscts]

/-- Claim C2 witness: the amended theorem applied with no trusted logs
and a failing DNS check, yielding the hostname-mismatch error after
chain and SCT checks succeed. -/
theorem verify_server_cert_order_witness :
    verify_scts oracleDnsFailSctSoft certEx 0 [] [] = .ok () ∧
    verify_server_cert oracleDnsFailSctSoft vNoLogs certEx [] dnsEx [] [] 0 =
      .error (.WebPkiError .CertNotValidForName .ValidateForDnsName) := by
  have h := verify_server_cert_order oracleDnsFailSctSoft vNoLogs certEx []
    dnsEx [] [] 0 ⟨[]⟩ rfl (by decide)
  refine ⟨by decide, ?_⟩
  have h2 := (h.2 rfl).2 rfl
  exact h2

/-- Claim C10 witness: the amended theorem evaluated at -5 ms (before
the epoch) and at 2500 ms. -/
theorem unix_time_millis_truncates_witness :
    unix_time_millis (-5) = .error .FailedToGetCurrentTime ∧
    unix_time_millis 2500 = .ok ((2500 : Int).toNat - (2500 : Int).toNat % 1000) ∧
    (2500 : Int).toNat - (2500 : Int).toNat % 1000 = 2000 ∧
    verify_scts oracleDnsFailSctSoft certEx (-5) [] [logEx] =
      .error .FailedToGetCurrentTime := by
  refine ⟨(unix_time_millis_truncates (-5)).1 (by decide),
    (unix_time_millis_truncates 2500).2.1 (by decide) (by decide),
    by decide,
    (unix_time_millis_truncates (-5)).2.2.2 oracleDnsFailSctSoft certEx [] logEx []
      (by decide)⟩

end Rustls
